import Mathlib

/-!
Verification of the DatabaseManager repository's Connection/Driver subsystem.

The Go sources are shallowly embedded in Lean:
- `models.Connection` and the result structs from `backend/models/request.go`
  become Lean structures;
- the connection manager from `backend/database/manager.go` becomes explicit
  state passing over an association list modelling the Go map
  `map[string]DatabaseDriver`; the behaviour of the per-backend driver
  (`driver.Connect` / `driver.Disconnect` succeed or fail) is abstracted into
  a `Behavior` oracle, and the state is instrumented with a ledger of
  driver-close invocations so that session leaks can be stated;
- the per-backend adapters (PostgreSQL / ClickHouse / Aerospike / Meilisearch
  from the database package) are embedded at the granularity the claims need:
  their `Connect` session accounting, their `ExecuteQuery` timing and row
  normalization, and their behaviour when no session is established;
- HTTP handlers from `backend/handlers` become pure functions from request
  data and state to (status, body, new state).

Errors are Go `error` values produced by `fmt.Errorf`; they are embedded as
`Option String` (`none` = nil error) or `Except String`.
-/

namespace DatabaseManager

/-! ## Data model (`backend/models`) -/

/-- `models.Connection` from part_008 (`type Connection struct`).  Timestamps
are carried as natural numbers (Unix milliseconds); `Type` is a Go string
(`type DatabaseType string`), embedded as `String`. -/
structure Connection where
  id : String
  name : String
  dbType : String
  host : String
  port : String
  database : String
  username : String
  password : String
  ssl : Bool
  connected : Bool
  createdAt : Nat
  updatedAt : Nat
deriving DecidableEq, Repr

/-- `models.TableColumn`. -/
structure TableColumn where
  name : String
  colType : String
  nullable : Bool
  primaryKey : Bool
  unique : Bool
deriving DecidableEq, Repr

/-- `models.TableInfo`. -/
structure TableInfo where
  name : String
  database : String
  size : String
  rows : Int
deriving DecidableEq, Repr

/-- `models.UserInfo`. -/
structure UserInfo where
  username : String
  permissions : List String
  isSuperuser : Bool
deriving DecidableEq, Repr

/-- `models.DatabaseInfo`. -/
structure DatabaseInfo where
  name : String
  owner : String
  size : String
deriving DecidableEq, Repr

/-! ## Driver factory (`DriverFactory.CreateDriver`, cassandra.go part) -/

/-- The backend-variant tags for which `DriverFactory.CreateDriver` returns a
non-nil driver (the 17 cases of its switch); every other string falls through
to `default: return nil`. -/
def supportedTypeTags : List String :=
  ["PostgreSQL", "MongoDB", "Elasticsearch", "Meilisearch", "ClickHouse",
   "Cassandra", "Aerospike", "Redis", "InfluxDB", "Neo4j", "Couchbase",
   "Supabase", "Druid", "CockroachDB", "Kafka", "RabbitMQ", "Zookeeper"]

/-- `factory.CreateDriver(t) != nil`. -/
def factorySupports (t : String) : Bool :=
  supportedTypeTags.contains t

/-! ## Connection manager (`backend/database/manager.go`)

The registry `m.drivers : map[string]DatabaseDriver` is an association list.
A registered driver is represented by a `DriverInstance` carrying a unique
instrumentation number `instId` (allocated in creation order), the variant
tag and the descriptor it was connected with.  The state also records, in
`closeCalls`, the `instId` of every driver whose `Disconnect` method the
manager invoked; this ledger lets us count how often a session's close hook
fires. -/

/-- One adapter instance held in the manager registry. -/
structure DriverInstance where
  instId : Nat
  connType : String
  desc : Connection
deriving DecidableEq, Repr

/-- Oracle for the backend-dependent outcomes of driver calls:
`connectOk c` tells whether `driver.Connect(ctx, c)` succeeds and
`closeOk n` whether instance `n`'s `driver.Disconnect(ctx)` succeeds,
with the corresponding error texts. -/
structure Behavior where
  connectOk : Connection → Bool
  connectErr : Connection → String
  closeOk : Nat → Bool
  closeErr : Nat → String

/-- The `ConnectionManager` state: the registry plus instrumentation
(`nextInst` is the next fresh instance number, `closeCalls` the ledger of
driver-close invocations). -/
structure ManagerState where
  drivers : List (String × DriverInstance)
  nextInst : Nat
  closeCalls : List Nat
deriving Repr

/-- `NewConnectionManager()`: empty registry. -/
def emptyManager : ManagerState := ⟨[], 0, []⟩

/-- Go map read `m.drivers[connectionID]` (first matching key). -/
def lookupDriver : List (String × DriverInstance) → String → Option DriverInstance
  | [], _ => none
  | (k, v) :: rest, id => if k = id then some v else lookupDriver rest id

/-- Go map write `m.drivers[conn.ID] = driver` (replace or append). -/
def insertDriver : List (String × DriverInstance) → String → DriverInstance →
    List (String × DriverInstance)
  | [], id, d => [(id, d)]
  | (k, v) :: rest, id, d =>
      if k = id then (id, d) :: rest else (k, v) :: insertDriver rest id d

/-- Go map `delete(m.drivers, connectionID)`. -/
def eraseDriver (m : List (String × DriverInstance)) (id : String) :
    List (String × DriverInstance) :=
  m.filter (fun kv => kv.1 ≠ id)

/-- Error text of `fmt.Errorf("подключение с ID %s не найдено", connectionID)`. -/
def notFoundMsg (id : String) : String :=
  "подключение с ID " ++ id ++ " не найдено"

/-- `ConnectionManager.Connect` (manager.go lines 24-39): create a driver via
the factory (nil for unsupported tags), call its `Connect`, and on success
overwrite the registry entry `m.drivers[conn.ID] = driver`.  Returns the new
state and the Go error. -/
def ManagerState.connect (B : Behavior) (s : ManagerState) (conn : Connection) :
    ManagerState × Option String :=
  if factorySupports conn.dbType = false then
    (s, some ("неподдерживаемый тип БД: " ++ conn.dbType))
  else
    let inst : DriverInstance := ⟨s.nextInst, conn.dbType, conn⟩
    if B.connectOk conn then
      ({ drivers := insertDriver s.drivers conn.id inst,
         nextInst := s.nextInst + 1,
         closeCalls := s.closeCalls }, none)
    else
      ({ s with nextInst := s.nextInst + 1 },
       some ("ошибка подключения: " ++ B.connectErr conn))

/-- `ConnectionManager.Disconnect` (manager.go lines 41-59): missing id is an
error; otherwise `driver.Disconnect` is invoked (recorded in the ledger), a
failure is returned without touching the registry, and only a successful
close reaches `delete(m.drivers, connectionID)`. -/
def ManagerState.disconnect (B : Behavior) (s : ManagerState) (id : String) :
    ManagerState × Option String :=
  match lookupDriver s.drivers id with
  | none => (s, some (notFoundMsg id))
  | some inst =>
      if B.closeOk inst.instId then
        ({ drivers := eraseDriver s.drivers id,
           nextInst := s.nextInst,
           closeCalls := s.closeCalls ++ [inst.instId] }, none)
      else
        ({ s with closeCalls := s.closeCalls ++ [inst.instId] },
         some ("ошибка отключения: " ++ B.closeErr inst.instId))

/-- `ConnectionManager.GetDriver` (manager.go lines 61-71). -/
def ManagerState.getDriver (s : ManagerState) (id : String) :
    Except String DriverInstance :=
  match lookupDriver s.drivers id with
  | none => Except.error (notFoundMsg id)
  | some d => Except.ok d

/-- Whether a `GetDriver` call succeeded. -/
def exceptOk {α : Type} : Except String α → Bool
  | Except.ok _ => true
  | Except.error _ => false

/-! ### Association-list lemmas -/

theorem lookup_insert (m : List (String × DriverInstance)) (id : String)
    (d : DriverInstance) (j : String) :
    lookupDriver (insertDriver m id d) j =
      if j = id then some d else lookupDriver m j := by
  induction m with
  | nil =>
      by_cases h : j = id
      · subst h; simp [insertDriver, lookupDriver]
      · have h2 : ¬ id = j := fun hh => h hh.symm
        simp [insertDriver, lookupDriver, h, h2]
  | cons hd tl ih =>
      obtain ⟨k, v⟩ := hd
      by_cases hk : k = id
      · subst hk
        by_cases hj : j = k
        · subst hj; simp [insertDriver, lookupDriver]
        · have hkj : ¬ k = j := fun hh => hj hh.symm
          simp [insertDriver, lookupDriver, hj, hkj]
      · by_cases hkj : k = j
        · have hj : ¬ j = id := fun hh => hk (hkj.trans hh)
          simp [insertDriver, lookupDriver, hk, hkj, hj]
        · simp [insertDriver, lookupDriver, hk, hkj, ih]

theorem lookup_erase (m : List (String × DriverInstance)) (id : String)
    (j : String) :
    lookupDriver (eraseDriver m id) j =
      if j = id then none else lookupDriver m j := by
  induction m with
  | nil => by_cases h : j = id <;> simp [eraseDriver, lookupDriver, h]
  | cons hd tl ih =>
      obtain ⟨k, v⟩ := hd
      by_cases hk : k = id
      · have hfilter : eraseDriver ((k, v) :: tl) id = eraseDriver tl id := by
          simp [eraseDriver, hk]
        rw [hfilter, ih]
        by_cases hj : j = id
        · simp [hj]
        · have hkj : ¬ k = j := fun hh => hj (hh.symm.trans hk)
          simp [hj, lookupDriver, hkj]
      · have hfilter : eraseDriver ((k, v) :: tl) id =
            (k, v) :: eraseDriver tl id := by
          simp [eraseDriver, hk]
        rw [hfilter]
        by_cases hkj : k = j
        · have hj : ¬ j = id := fun hh => hk (hkj.trans hh)
          simp [lookupDriver, hkj, hj]
        · simp [lookupDriver, hkj, ih]

/-! ### Basic facts about `GetDriver` -/

theorem exceptOk_getDriver (s : ManagerState) (id : String) :
    exceptOk (s.getDriver id) = (lookupDriver s.drivers id).isSome := by
  cases h : lookupDriver s.drivers id <;>
    simp [ManagerState.getDriver, h, exceptOk]

theorem getDriver_none (s : ManagerState) (id : String)
    (h : lookupDriver s.drivers id = none) :
    s.getDriver id = Except.error (notFoundMsg id) := by
  simp [ManagerState.getDriver, h]

/-! ### Iterated `Disconnect` -/

/-- Calling `ConnectionManager.Disconnect(id)` `n` times in a row. -/
def disconnectIter (B : Behavior) (id : String) : Nat → ManagerState → ManagerState
  | 0, s => s
  | n + 1, s => disconnectIter B id n ((s.disconnect B id).1)

theorem disconnect_drivers_stable (B : Behavior) (s : ManagerState) (id : String) :
    (((((s.disconnect B id).1)).disconnect B id).1).drivers
      = ((s.disconnect B id).1).drivers := by
  cases hl : lookupDriver s.drivers id with
  | none => simp [ManagerState.disconnect, hl]
  | some inst =>
      by_cases hc : B.closeOk inst.instId = true
      · simp [ManagerState.disconnect, hl, hc, lookup_erase]
      · simp [ManagerState.disconnect, hl, hc]

theorem disconnectIter_drivers (B : Behavior) (id : String) (n : Nat)
    (s : ManagerState) :
    (disconnectIter B id (n + 1) s).drivers = ((s.disconnect B id).1).drivers := by
  induction n generalizing s with
  | zero => rfl
  | succ n ih =>
      have hstep : disconnectIter B id (n + 1 + 1) s
          = disconnectIter B id (n + 1) ((s.disconnect B id).1) := rfl
      rw [hstep, ih, disconnect_drivers_stable]

/-! ### Sequences of manager operations and the spec-side state machine -/

/-- A call into the manager: `Connect(ctx, conn)` or `Disconnect(id)`. -/
inductive MgrOp where
  | connectOp (conn : Connection)
  | disconnectOp (id : String)

def applyOp (B : Behavior) (s : ManagerState) : MgrOp → ManagerState
  | .connectOp conn => (s.connect B conn).1
  | .disconnectOp id => (s.disconnect B id).1

/-- Run a sequence of manager calls from a fresh `NewConnectionManager()`. -/
def runOps (B : Behavior) (ops : List MgrOp) : ManagerState :=
  ops.foldl (applyOp B) emptyManager

/-- Modelled from the spec words (§4.4 state machine and §8, claim C5): the
per-identifier predicate "the most recent terminal transition for `id` was a
successful `Connect` not followed by `Disconnect`": a successful `Connect`
for `id` (supported tag and the adapter connected) moves it to `Live`; a
`Disconnect(id)` moves it to `Unregistered`; failed connects leave the state
unchanged.  The accumulator is the liveness at the start of the remaining
trace. -/
def specLiveFrom (B : Behavior) (id : String) : Bool → List MgrOp → Bool
  | b, [] => b
  | b, .connectOp conn :: rest =>
      specLiveFrom B id
        (if conn.id = id then
          (if factorySupports conn.dbType && B.connectOk conn then true else b)
         else b) rest
  | b, .disconnectOp did :: rest =>
      specLiveFrom B id (if did = id then false else b) rest

def specLive (B : Behavior) (id : String) (ops : List MgrOp) : Bool :=
  specLiveFrom B id false ops

theorem connect_live_acc (B : Behavior) (s : ManagerState) (conn : Connection)
    (id : String) :
    (lookupDriver ((s.connect B conn).1).drivers id).isSome
      = if conn.id = id then
          (if factorySupports conn.dbType && B.connectOk conn then true
           else (lookupDriver s.drivers id).isSome)
        else (lookupDriver s.drivers id).isSome := by
  by_cases hsup : factorySupports conn.dbType = false
  · simp [ManagerState.connect, hsup]
  · by_cases hok : B.connectOk conn = true
    · have hsup2 : factorySupports conn.dbType = true := by
        cases h : factorySupports conn.dbType
        · exact absurd h hsup
        · rfl
      by_cases hid : conn.id = id
      · subst hid
        simp [ManagerState.connect, hsup, hok, hsup2, lookup_insert]
      · have hid2 : ¬ id = conn.id := fun hh => hid hh.symm
        simp [ManagerState.connect, hsup, hok, hsup2, lookup_insert, hid, hid2]
    · have hok2 : B.connectOk conn = false := by
        cases h : B.connectOk conn
        · rfl
        · exact absurd h hok
      simp [ManagerState.connect, hsup, hok, hok2]

theorem disconnect_live_acc (B : Behavior) (hB : ∀ n, B.closeOk n = true)
    (s : ManagerState) (did : String) (id : String) :
    (lookupDriver ((s.disconnect B did).1).drivers id).isSome
      = if did = id then false else (lookupDriver s.drivers id).isSome := by
  cases hl : lookupDriver s.drivers did with
  | none =>
      by_cases hid : did = id
      · subst hid
        simp [ManagerState.disconnect, hl]
      · simp [ManagerState.disconnect, hl, hid]
  | some inst =>
      by_cases hid : did = id
      · subst hid
        simp [ManagerState.disconnect, hl, hB inst.instId, lookup_erase]
      · have hid2 : ¬ id = did := fun hh => hid hh.symm
        simp [ManagerState.disconnect, hl, hB inst.instId, lookup_erase, hid, hid2]

theorem foldl_live (B : Behavior) (hB : ∀ n, B.closeOk n = true)
    (ops : List MgrOp) (id : String) :
    ∀ s : ManagerState,
      (lookupDriver (ops.foldl (applyOp B) s).drivers id).isSome
        = specLiveFrom B id (lookupDriver s.drivers id).isSome ops := by
  induction ops with
  | nil => intro s; rfl
  | cons op rest ih =>
      intro s
      cases op with
      | connectOp conn =>
          rw [List.foldl_cons]
          show (lookupDriver (rest.foldl (applyOp B) ((s.connect B conn).1)).drivers id).isSome
            = specLiveFrom B id _ (.connectOp conn :: rest)
          rw [ih ((s.connect B conn).1)]
          show specLiveFrom B id _ rest = specLiveFrom B id _ (.connectOp conn :: rest)
          rw [show specLiveFrom B id (lookupDriver s.drivers id).isSome
                (.connectOp conn :: rest)
              = specLiveFrom B id
                  (if conn.id = id then
                    (if factorySupports conn.dbType && B.connectOk conn then true
                     else (lookupDriver s.drivers id).isSome)
                   else (lookupDriver s.drivers id).isSome) rest from rfl]
          rw [connect_live_acc]
      | disconnectOp did =>
          rw [List.foldl_cons]
          show (lookupDriver (rest.foldl (applyOp B) ((s.disconnect B did).1)).drivers id).isSome
            = specLiveFrom B id _ (.disconnectOp did :: rest)
          rw [ih ((s.disconnect B did).1)]
          show specLiveFrom B id _ rest = specLiveFrom B id _ (.disconnectOp did :: rest)
          rw [show specLiveFrom B id (lookupDriver s.drivers id).isSome
                (.disconnectOp did :: rest)
              = specLiveFrom B id
                  (if did = id then false else (lookupDriver s.drivers id).isSome)
                  rest from rfl]
          rw [disconnect_live_acc B hB]

/-! ### Concrete fixtures -/

/-- Backend behaviour where every adapter connect and close succeeds. -/
def alwaysOkBehavior : Behavior :=
  ⟨fun _ => true, fun _ => "", fun _ => true, fun _ => ""⟩

/-- Backend behaviour where connects succeed but every driver close fails. -/
def closeFailsBehavior : Behavior :=
  ⟨fun _ => true, fun _ => "", fun _ => false, fun _ => "обрыв сети"⟩

/-- Backend behaviour where every adapter connect fails. -/
def connectFailsBehavior : Behavior :=
  ⟨fun _ => false, fun _ => "connection refused", fun _ => true, fun _ => ""⟩

/-- A PostgreSQL connection descriptor. -/
def connPG : Connection :=
  { id := "pg1", name := "pg", dbType := "PostgreSQL", host := "h",
    port := "5432", database := "db", username := "u", password := "pw",
    ssl := false, connected := false, createdAt := 0, updatedAt := 0 }

/-- A ClickHouse connection descriptor. -/
def connCH : Connection :=
  { connPG with id := "ch1", name := "ch", dbType := "ClickHouse" }

/-! ### Claim C1 -/

/-- Claim C1 counterexample: connecting twice for id "pg1" with a behaviour
where everything succeeds replaces the registry entry (instance 0 is
superseded by instance 1) but the close ledger stays empty: the prior
session's close is invoked zero times, not exactly once as claimed
(manager.go line 37 overwrites `m.drivers[conn.ID]` without disconnecting
the old driver). -/
theorem connect_replace_leaks_counterexample :
    lookupDriver ((emptyManager.connect alwaysOkBehavior connPG).1).drivers "pg1"
        = some ⟨0, "PostgreSQL", connPG⟩ ∧
    (((emptyManager.connect alwaysOkBehavior connPG).1).connect alwaysOkBehavior connPG).2
        = none ∧
    lookupDriver ((((emptyManager.connect alwaysOkBehavior connPG).1).connect
        alwaysOkBehavior connPG).1).drivers "pg1"
        = some ⟨1, "PostgreSQL", connPG⟩ ∧
    ((((emptyManager.connect alwaysOkBehavior connPG).1).connect
        alwaysOkBehavior connPG).1).closeCalls.count 0 = 0 :=
  ⟨rfl, rfl, rfl, rfl⟩

/-- Claim C1 (amended): when id is already Live, a successful
`Connect(ctx, conn)` replaces the registry entry with the freshly created
adapter instance, but the previously registered adapter is never
disconnected: the manager's close ledger is unchanged, so the prior
session is leaked (its close fires zero times, last-writer-wins without
cleanup). -/
theorem connect_replaces_entry_without_closing (B : Behavior)
    (s : ManagerState) (conn : Connection) (old : DriverInstance)
    (hold : lookupDriver s.drivers conn.id = some old)
    (hsup : factorySupports conn.dbType = true)
    (hok : B.connectOk conn = true) :
    (s.connect B conn).2 = none ∧
    lookupDriver ((s.connect B conn).1).drivers conn.id
        = some ⟨s.nextInst, conn.dbType, conn⟩ ∧
    ((s.connect B conn).1).closeCalls = s.closeCalls := by
  simp [ManagerState.connect, hsup, hok, lookup_insert]

theorem connect_replaces_entry_without_closing_witness :
    (lookupDriver ((emptyManager.connect alwaysOkBehavior connPG).1).drivers
        connPG.id = some ⟨0, "PostgreSQL", connPG⟩) ∧
    ((((emptyManager.connect alwaysOkBehavior connPG).1).connect
        alwaysOkBehavior connPG).2 = none ∧
     lookupDriver ((((emptyManager.connect alwaysOkBehavior connPG).1).connect
        alwaysOkBehavior connPG).1).drivers connPG.id
        = some ⟨((emptyManager.connect alwaysOkBehavior connPG).1).nextInst,
                connPG.dbType, connPG⟩ ∧
     ((((emptyManager.connect alwaysOkBehavior connPG).1).connect
        alwaysOkBehavior connPG).1).closeCalls
        = ((emptyManager.connect alwaysOkBehavior connPG).1).closeCalls) :=
  ⟨rfl, connect_replaces_entry_without_closing alwaysOkBehavior
      ((emptyManager.connect alwaysOkBehavior connPG).1) connPG
      ⟨0, "PostgreSQL", connPG⟩ rfl rfl rfl⟩

/-! ### Claim C2 -/

/-- Claim C2 counterexample: `Disconnect` on an id that is not in the
registry (never connected, or already disconnected) returns the not-found
error (manager.go lines 45-48), contradicting "never returns an error when
id is already disconnected". -/
theorem disconnect_missing_errors_counterexample :
    (emptyManager.disconnect alwaysOkBehavior "missing").2
        = some (notFoundMsg "missing") := rfl

/-- Claim C2 (amended): calling `Disconnect(id)` N≥1 times leaves the same
registry end state as calling it once, but a `Disconnect` on an id that is
absent from the registry returns the not-found error (and changes nothing)
rather than succeeding silently. -/
theorem disconnect_idempotent_registry (B : Behavior) (s : ManagerState)
    (id : String) (n : Nat) :
    (disconnectIter B id (n + 1) s).drivers
        = ((s.disconnect B id).1).drivers ∧
    (lookupDriver s.drivers id = none →
      s.disconnect B id = (s, some (notFoundMsg id))) := by
  refine ⟨disconnectIter_drivers B id n s, fun h => ?_⟩
  simp [ManagerState.disconnect, h]

theorem disconnect_idempotent_registry_witness :
    ((disconnectIter alwaysOkBehavior "x" 3 emptyManager).drivers
        = ((emptyManager.disconnect alwaysOkBehavior "x").1).drivers) ∧
    (lookupDriver emptyManager.drivers "x" = none) ∧
    (emptyManager.disconnect alwaysOkBehavior "x"
        = (emptyManager, some (notFoundMsg "x"))) :=
  ⟨(disconnect_idempotent_registry alwaysOkBehavior emptyManager "x" 2).1,
   rfl,
   (disconnect_idempotent_registry alwaysOkBehavior emptyManager "x" 2).2 rfl⟩

/-! ### Claim C3 -/

/-- Claim C3 counterexample: when the adapter's `Disconnect` fails, the
manager returns the wrapped error and does NOT remove the registry entry
(manager.go lines 53-55 return before `delete`), so a subsequent
`GetDriver` still succeeds — contradicting "still removes the registry
entry" and "not propagated as a blocking error". -/
theorem disconnect_failure_counterexample :
    (((emptyManager.connect closeFailsBehavior connPG).1).disconnect
        closeFailsBehavior "pg1").2
        = some ("ошибка отключения: " ++ "обрыв сети") ∧
    ((((emptyManager.connect closeFailsBehavior connPG).1).disconnect
        closeFailsBehavior "pg1").1).getDriver "pg1"
        = Except.ok ⟨0, "PostgreSQL", connPG⟩ :=
  ⟨rfl, rfl⟩

/-- Claim C3 (amended): if the adapter's `Disconnect` returns an error, the
manager's `Disconnect(id)` propagates the wrapped error and leaves the
registry entry for id in place, so a subsequent `GetDriver(id)` still
succeeds (the registry can keep pointing at a broken session). -/
theorem disconnect_failure_keeps_entry (B : Behavior) (s : ManagerState)
    (id : String) (inst : DriverInstance)
    (h : lookupDriver s.drivers id = some inst)
    (hfail : B.closeOk inst.instId = false) :
    (s.disconnect B id).2
        = some ("ошибка отключения: " ++ B.closeErr inst.instId) ∧
    ((s.disconnect B id).1).drivers = s.drivers ∧
    ((s.disconnect B id).1).getDriver id = Except.ok inst := by
  simp [ManagerState.disconnect, h, hfail, ManagerState.getDriver]

theorem disconnect_failure_keeps_entry_witness :
    (lookupDriver ((emptyManager.connect closeFailsBehavior connPG).1).drivers
        "pg1" = some ⟨0, "PostgreSQL", connPG⟩) ∧
    (closeFailsBehavior.closeOk 0 = false) ∧
    ((((emptyManager.connect closeFailsBehavior connPG).1).disconnect
        closeFailsBehavior "pg1").2
        = some ("ошибка отключения: " ++ closeFailsBehavior.closeErr 0) ∧
     ((((emptyManager.connect closeFailsBehavior connPG).1).disconnect
        closeFailsBehavior "pg1").1).drivers
        = ((emptyManager.connect closeFailsBehavior connPG).1).drivers ∧
     ((((emptyManager.connect closeFailsBehavior connPG).1).disconnect
        closeFailsBehavior "pg1").1).getDriver "pg1"
        = Except.ok ⟨0, "PostgreSQL", connPG⟩) :=
  ⟨rfl, rfl, disconnect_failure_keeps_entry closeFailsBehavior
      ((emptyManager.connect closeFailsBehavior connPG).1) "pg1"
      ⟨0, "PostgreSQL", connPG⟩ rfl rfl⟩

/-! ### Claim C4: failed connect leaves no entry; session release -/

theorem connect_error_drivers_unchanged (B : Behavior) (s : ManagerState)
    (conn : Connection) (e : String)
    (h : (s.connect B conn).2 = some e) :
    ((s.connect B conn).1).drivers = s.drivers := by
  by_cases hsup : factorySupports conn.dbType = false
  · simp [ManagerState.connect, hsup]
  · by_cases hok : B.connectOk conn = true
    · exfalso
      simp [ManagerState.connect, hsup, hok] at h
    · simp [ManagerState.connect, hsup, hok]

/-- The backend-side outcomes a connect attempt can encounter: whether the
session/pool opens, and whether the liveness probe succeeds. -/
structure ConnectWorld where
  openOk : Bool
  openErr : String
  pingOk : Bool
  pingErr : String

/-- Result of one adapter `Connect` call: the session handle the driver
stores, the Go error, and a ledger of backend sessions opened and closed
during the call. -/
structure ConnectOutcome where
  session : Option Nat
  errMsg : Option String
  opened : Nat
  closed : Nat
deriving DecidableEq, Repr

/-- `PostgreSQLDriver.Connect` (part_005 lines 23-80): an empty password is
rejected up front; if the pool opens but `Ping` fails, `pool.Close()` runs
before the error returns; only a pool that opens and pings is stored in
`d.pool`. -/
def pgDriverConnect (w : ConnectWorld) (conn : Connection) : ConnectOutcome :=
  if conn.password = "" then
    ⟨none, some "пароль не указан для подключения", 0, 0⟩
  else if w.openOk = false then
    ⟨none, some ("ошибка подключения к PostgreSQL: " ++ w.openErr), 0, 0⟩
  else if w.pingOk = false then
    ⟨none, some ("ошибка ping PostgreSQL: " ++ w.pingErr), 1, 1⟩
  else ⟨some 0, none, 1, 0⟩

/-- `ClickHouseDriver.Connect` (part_005 lines 545-574): when the opened
`chConn` fails `Ping`, the function returns the error WITHOUT calling
`chConn.Close()`; the session stays open though `d.conn` is never set. -/
def chDriverConnect (w : ConnectWorld) (conn : Connection) : ConnectOutcome :=
  if w.openOk = false then
    ⟨none, some ("ошибка подключения к ClickHouse: " ++ w.openErr), 0, 0⟩
  else if w.pingOk = false then
    ⟨none, some ("ошибка ping ClickHouse: " ++ w.pingErr), 1, 0⟩
  else ⟨some 0, none, 1, 0⟩

/-- A world in which the session opens but the liveness probe fails. -/
def pingFailWorld : ConnectWorld :=
  ⟨true, "", false, "context deadline exceeded"⟩

/-- Claim C4 counterexample: for a ClickHouse descriptor whose session opens
but whose liveness probe fails, `Connect` reports the failure with one
session opened and zero sessions closed — the partially opened backend
session is NOT released, contradicting "any partially opened backend
session is released". -/
theorem connect_failure_leak_counterexample :
    (chDriverConnect pingFailWorld connCH).errMsg
        = some ("ошибка ping ClickHouse: " ++ "context deadline exceeded") ∧
    (chDriverConnect pingFailWorld connCH).opened = 1 ∧
    (chDriverConnect pingFailWorld connCH).closed = 0 :=
  ⟨rfl, rfl, rfl⟩

theorem pg_connect_error_releases (w : ConnectWorld) (c : Connection)
    (h : (pgDriverConnect w c).errMsg ≠ none) :
    (pgDriverConnect w c).closed = (pgDriverConnect w c).opened ∧
    (pgDriverConnect w c).session = none := by
  unfold pgDriverConnect at h ⊢
  by_cases h1 : c.password = ""
  · simp [h1]
  · by_cases h2 : w.openOk = false
    · simp [h1, h2]
    · by_cases h3 : w.pingOk = false
      · simp [h1, h2, h3]
      · exfalso
        simp [h1, h2, h3] at h

/-- Claim C4 (amended): when the manager's `Connect` fails (unsupported
type or failed adapter connect) the registry is unchanged, and the
PostgreSQL adapter fully releases a partially opened session (every session
it opened is closed and none is stored) whenever its `Connect` errors —
including the open-then-ping-fails case; the release guarantee does not
extend to every adapter (the ClickHouse adapter leaks its session on ping
failure, see the counterexample). -/
theorem connect_failure_policy (B : Behavior) (s : ManagerState)
    (conn : Connection) (e : String) (w : ConnectWorld) (c : Connection)
    (hmgr : (s.connect B conn).2 = some e)
    (hpg : (pgDriverConnect w c).errMsg ≠ none) :
    ((s.connect B conn).1).drivers = s.drivers ∧
    (pgDriverConnect w c).closed = (pgDriverConnect w c).opened ∧
    (pgDriverConnect w c).session = none :=
  ⟨connect_error_drivers_unchanged B s conn e hmgr,
   (pg_connect_error_releases w c hpg).1,
   (pg_connect_error_releases w c hpg).2⟩

theorem connect_failure_policy_witness :
    ((emptyManager.connect connectFailsBehavior connPG).2
        = some ("ошибка подключения: " ++ "connection refused")) ∧
    ((pgDriverConnect pingFailWorld connPG).errMsg ≠ none) ∧
    (((emptyManager.connect connectFailsBehavior connPG).1).drivers
        = emptyManager.drivers ∧
     (pgDriverConnect pingFailWorld connPG).closed
        = (pgDriverConnect pingFailWorld connPG).opened ∧
     (pgDriverConnect pingFailWorld connPG).session = none) :=
  ⟨rfl, by decide,
   connect_failure_policy connectFailsBehavior emptyManager connPG
      ("ошибка подключения: " ++ "connection refused") pingFailWorld connPG
      rfl (by decide)⟩

/-! ### Claim C5: `GetDriver` succeeds iff the id is Live -/

/-- Claim C5: over any sequence of manager calls from a fresh manager (with
driver closes succeeding, as in the spec's state machine which has no
failing close), `GetDriver(id)` succeeds exactly when the spec-side state
machine says the most recent terminal transition for id was a successful
`Connect` not followed by `Disconnect`; and whenever it fails the error is
exactly the single "connection not found" message — no other error kind
exists on this path. -/
theorem getDriver_iff_live (B : Behavior) (hB : ∀ n, B.closeOk n = true)
    (ops : List MgrOp) (id : String) :
    exceptOk ((runOps B ops).getDriver id) = specLive B id ops ∧
    (specLive B id ops = false →
      (runOps B ops).getDriver id = Except.error (notFoundMsg id)) := by
  have hmain : (lookupDriver (runOps B ops).drivers id).isSome
      = specLive B id ops := by
    have h := foldl_live B hB ops id emptyManager
    simpa [runOps, specLive, emptyManager, lookupDriver] using h
  constructor
  · rw [exceptOk_getDriver, hmain]
  · intro hfalse
    apply getDriver_none
    cases hl : lookupDriver (runOps B ops).drivers id with
    | none => rfl
    | some d =>
        exfalso
        rw [hl, hfalse] at hmain
        simp at hmain

theorem getDriver_iff_live_witness :
    (exceptOk ((runOps alwaysOkBehavior
        [MgrOp.connectOp connPG, MgrOp.disconnectOp "pg1",
         MgrOp.connectOp connPG]).getDriver "pg1")
      = specLive alwaysOkBehavior "pg1"
        [MgrOp.connectOp connPG, MgrOp.disconnectOp "pg1",
         MgrOp.connectOp connPG]) ∧
    ((runOps alwaysOkBehavior
        [MgrOp.connectOp connPG, MgrOp.disconnectOp "pg1"]).getDriver "pg1"
      = Except.error (notFoundMsg "pg1")) :=
  ⟨(getDriver_iff_live alwaysOkBehavior (fun _ => rfl)
      [MgrOp.connectOp connPG, MgrOp.disconnectOp "pg1",
       MgrOp.connectOp connPG] "pg1").1,
   (getDriver_iff_live alwaysOkBehavior (fun _ => rfl)
      [MgrOp.connectOp connPG, MgrOp.disconnectOp "pg1"] "pg1").2 rfl⟩

/-! ### Claim C6: unsupported operations

The adapters return plain `fmt.Errorf` strings for operations the backend
has no concept for; the Go error interface carries no kind tag.  The
functions below are the cited operations; the handler shows how any driver
error is surfaced. -/

/-- Error text of the four Meilisearch user operations (part_005 lines
1346-1359), returned unconditionally. -/
def meiliUsersUnsupportedMsg : String :=
  "Meilisearch не поддерживает управление пользователями через API"

/-- `MeilisearchDriver.CreateUser`. -/
def meiliCreateUser (username password database : String)
    (permissions : List String) : Option String :=
  some meiliUsersUnsupportedMsg

/-- `MeilisearchDriver.ListUsers` (returns nil slice plus the error). -/
def meiliListUsers : Option (List UserInfo) × Option String :=
  (none, some meiliUsersUnsupportedMsg)

/-- `MeilisearchDriver.UpdateUser`. -/
def meiliUpdateUser (username password : String)
    (permissions : List String) : Option String :=
  some meiliUsersUnsupportedMsg

/-- `MeilisearchDriver.DeleteUser`. -/
def meiliDeleteUser (username : String) : Option String :=
  some meiliUsersUnsupportedMsg

/-- Error text of the Aerospike table operations (part_004 lines 129-143). -/
def aeroTablesMsg : String :=
  "Aerospike не использует таблицы в традиционном смысле. Используйте sets внутри namespace"

/-- Error text of `AerospikeDriver.CreateUser` (part_004 lines 145-147). -/
def aeroCreateUserMsg : String :=
  "создание пользователей в Aerospike требует Enterprise Edition и настройки через aerospike.conf"

/-- `AerospikeDriver.CreateTable`: no nil-client guard, returns the plain
error regardless of connection state. -/
def aeroCreateTable (client : Option Nat) (name : String)
    (columns : List TableColumn) : Option String :=
  some aeroTablesMsg

/-- `AerospikeDriver.ListTables`: returns an empty (non-nil) slice AND the
error. -/
def aeroListTables (client : Option Nat) :
    Option (List TableInfo) × Option String :=
  (some [], some aeroTablesMsg)

/-- `AerospikeDriver.DeleteTable`. -/
def aeroDeleteTable (client : Option Nat) (name : String) : Option String :=
  some aeroTablesMsg

/-- `AerospikeDriver.UpdateTable`. -/
def aeroUpdateTable (client : Option Nat) (oldName newName : String)
    (columns : List TableColumn) : Option String :=
  some aeroTablesMsg

/-- `AerospikeDriver.CreateUser`. -/
def aeroCreateUser (client : Option Nat) (username password database : String)
    (permissions : List String) : Option String :=
  some aeroCreateUserMsg

/-- `CreateTableHandler` (handlers/tables.go lines 11-42) reduced to the
(status, body) it writes: unknown connection id → 404 with the lookup
error; any driver error → 500 with the raw error text (one uniform branch
for every driver error, `http.Error(w, err.Error(), StatusInternalServerError)`);
success → 200. -/
def createTableHandlerRespond (s : ManagerState) (connectionId : String)
    (runCreateTable : DriverInstance → Option String) : Nat × String :=
  match s.getDriver connectionId with
  | Except.error e => (404, e)
  | Except.ok d =>
      match runCreateTable d with
      | some e => (500, e)
      | none => (200, "success")

/-- An Aerospike connection descriptor. -/
def connAero : Connection :=
  { connPG with id := "as1", name := "as", dbType := "Aerospike" }

/-- Claim C6 counterexample: `CreateTable` on a live Aerospike connection
returns its unsupported-operation explanation, but the handler surfaces it
with status 500 and the raw string — exactly as it surfaces a true backend
failure ("dial tcp: connection refused").  The code has no Unsupported
error kind, so the Unsupported outcome is NOT distinguishable from the
BackendError kind, contradicting the claim. -/
theorem unsupported_not_distinct_counterexample :
    aeroCreateTable (some 0) "t" [] = some aeroTablesMsg ∧
    (createTableHandlerRespond
        ((emptyManager.connect alwaysOkBehavior connAero).1) "as1"
        (fun _ => aeroCreateTable (some 0) "t" [])).1 = 500 ∧
    (createTableHandlerRespond
        ((emptyManager.connect alwaysOkBehavior connAero).1) "as1"
        (fun _ => some "dial tcp: connection refused")).1 = 500 :=
  ⟨rfl, rfl, rfl⟩

/-- Claim C6 (amended): every cited contract operation whose concept the
backend lacks returns (totally, never panicking) a well-formed plain error
carrying a human-readable explanation of the nearest native alternative;
but there is no distinct Unsupported error kind: the handler surfaces any
driver error — unsupported or genuine backend failure alike — as the raw
string with the same HTTP 500 status. -/
theorem unsupported_ops_return_explanations (u p db n o2 n2 : String)
    (perms : List String) (cl : Option Nat) (cols : List TableColumn)
    (s : ManagerState) (cid : String) (e : String) (d : DriverInstance)
    (hd : lookupDriver s.drivers cid = some d)
    (f : DriverInstance → Option String) (hf : f d = some e) :
    meiliCreateUser u p db perms = some meiliUsersUnsupportedMsg ∧
    meiliListUsers.2 = some meiliUsersUnsupportedMsg ∧
    meiliUpdateUser u p perms = some meiliUsersUnsupportedMsg ∧
    meiliDeleteUser u = some meiliUsersUnsupportedMsg ∧
    aeroCreateTable cl n cols = some aeroTablesMsg ∧
    (aeroListTables cl).2 = some aeroTablesMsg ∧
    aeroDeleteTable cl n = some aeroTablesMsg ∧
    aeroUpdateTable cl o2 n2 cols = some aeroTablesMsg ∧
    aeroCreateUser cl u p db perms = some aeroCreateUserMsg ∧
    meiliUsersUnsupportedMsg ≠ "" ∧ aeroTablesMsg ≠ "" ∧
    aeroCreateUserMsg ≠ "" ∧
    createTableHandlerRespond s cid f = (500, e) := by
  refine ⟨rfl, rfl, rfl, rfl, rfl, rfl, rfl, rfl, rfl, ?_, ?_, ?_, ?_⟩
  · decide
  · decide
  · decide
  · simp [createTableHandlerRespond, ManagerState.getDriver, hd, hf]

theorem unsupported_ops_return_explanations_witness :
    (lookupDriver ((emptyManager.connect alwaysOkBehavior connAero).1).drivers
        "as1" = some ⟨0, "Aerospike", connAero⟩) ∧
    ((fun _ : DriverInstance => some "таймаут") ⟨0, "Aerospike", connAero⟩
        = some "таймаут") ∧
    (aeroCreateTable (some 0) "t" [] = some aeroTablesMsg ∧
     createTableHandlerRespond
        ((emptyManager.connect alwaysOkBehavior connAero).1) "as1"
        (fun _ => some "таймаут") = (500, "таймаут")) :=
  ⟨rfl, rfl,
   ⟨(unsupported_ops_return_explanations "u" "p" "db" "t" "a" "b" [] (some 0)
       [] ((emptyManager.connect alwaysOkBehavior connAero).1) "as1" "таймаут"
       ⟨0, "Aerospike", connAero⟩ rfl (fun _ => some "таймаут") rfl).2.2.2.2.1,
    (unsupported_ops_return_explanations "u" "p" "db" "t" "a" "b" [] (some 0)
       [] ((emptyManager.connect alwaysOkBehavior connAero).1) "as1" "таймаут"
       ⟨0, "Aerospike", connAero⟩ rfl (fun _ => some "таймаут")
       rfl).2.2.2.2.2.2.2.2.2.2.2.2⟩⟩

/-! ### Claim C7: `ExecuteQuery` timing and row count

`models.QueryResponse` and the two cited `ExecuteQuery` implementations.
Time is embedded as an explicit cost semantics: the backend call consumes
`queryMillis` and the scan/normalization loop consumes `scanMillis`
milliseconds of wall clock.  The Go code reads `startTime` before
`pool.Query` and computes `time.Since(startTime).Milliseconds()` AFTER the
normalization loop, so the reported `ExecutionTime` is the sum of both
costs.  Cell values are opaque strings. -/

/-- `models.QueryResponse`: rows are per-row column→value mappings. -/
structure QueryResponse where
  columns : List String
  rows : List (List (String × String))
  rowCount : Nat
  executionTime : Nat
  error : String
deriving DecidableEq, Repr

/-- One `pool.Query` call as the backend performs it: either a query error,
or the field descriptions (column names) plus the raw rows, each of which
either yields its values or fails `rows.Values()` (such a row is skipped by
the loop's `continue`).  `backendCount` is the backend's own row-count
field, which the code never consults. -/
structure QueryWorld where
  result : Except String (List String × List (Except String (List String)))
  backendCount : Nat
  queryMillis : Nat
  scanMillis : Nat

/-- `PostgreSQLDriver.ExecuteQuery` (part_005 lines 104-148): nil pool is
an error; a query error is returned as a response whose only populated
field is `Error` (Go zero values elsewhere, in particular
`ExecutionTime = 0`); otherwise each surviving raw row is zipped with the
column names (`for i, col := range columns { if i < len(values) ... }`),
`RowCount` is the length of the normalized slice, and `ExecutionTime` is
measured across both the backend call and the scan loop. -/
def pgExecuteQuery (w : QueryWorld) (pool : Option Nat) (query : String) :
    Except String QueryResponse :=
  match pool with
  | none => Except.error "подключение не установлено"
  | some _ =>
      match w.result with
      | Except.error e =>
          Except.ok { columns := [], rows := [], rowCount := 0,
                      executionTime := 0, error := e }
      | Except.ok (cols, rawRows) =>
          let rowsData := rawRows.filterMap (fun r =>
            match r with
            | Except.error _ => none
            | Except.ok values => some (cols.zip values))
          Except.ok { columns := cols, rows := rowsData,
                      rowCount := rowsData.length,
                      executionTime := w.queryMillis + w.scanMillis,
                      error := "" }

/-- `ClickHouseDriver.ExecuteQuery` (part_005 lines 599-647): same shape;
rows failing `rows.Scan` are skipped, DateTime/Date cells are reformatted
during the scan (`normVal`), and `ExecutionTime` is likewise computed after
the scan loop. -/
def chExecuteQuery (w : QueryWorld) (normVal : String → String)
    (conn : Option Nat) (query : String) : Except String QueryResponse :=
  match conn with
  | none => Except.error "подключение не установлено"
  | some _ =>
      match w.result with
      | Except.error e =>
          Except.ok { columns := [], rows := [], rowCount := 0,
                      executionTime := 0, error := e }
      | Except.ok (cols, rawRows) =>
          let rowsData := rawRows.filterMap (fun r =>
            match r with
            | Except.error _ => none
            | Except.ok values => some (cols.zip (values.map normVal)))
          Except.ok { columns := cols, rows := rowsData,
                      rowCount := rowsData.length,
                      executionTime := w.queryMillis + w.scanMillis,
                      error := "" }

/-- A world where the backend call takes 10 ms, normalization takes 5 ms,
the backend reports 2 rows, and one of the two raw rows fails value
extraction. -/
def timingWorld : QueryWorld :=
  { result := Except.ok (["c"], [Except.ok ["v"], Except.error "bad scan"]),
    backendCount := 2, queryMillis := 10, scanMillis := 5 }

/-- Claim C7 counterexample: the claim requires the reported elapsed time
to be measured strictly around the backend call (10 ms here, excluding the
5 ms of normalization), but `PostgreSQLDriver.ExecuteQuery` stops the
clock only after the normalization loop and reports 15 ms.  (`rowCount`
is indeed the post-normalization `1`, not the backend's count `2`.) -/
theorem query_timing_counterexample :
    pgExecuteQuery timingWorld (some 0) "SELECT 1"
      = Except.ok { columns := ["c"], rows := [[("c", "v")]], rowCount := 1,
                    executionTime := 15, error := "" } ∧
    timingWorld.queryMillis = 10 ∧ timingWorld.backendCount = 2 :=
  ⟨rfl, rfl, rfl⟩

/-- Claim C7 (amended): for every successful `ExecuteQuery` (PostgreSQL or
ClickHouse), the reported elapsed time is an integer number of
milliseconds measured from immediately before the backend call until after
result normalization — i.e. it INCLUDES the normalization cost — and
`rowCount` is computed after normalization (never taken from the backend's
count field), so `rowCount = length rows` whenever no error is present. -/
theorem executeQuery_time_and_rowcount (w w2 : QueryWorld)
    (normVal : String → String) (pool conn2 : Nat) (q q2 : String)
    (r r2 : QueryResponse)
    (hq : exceptOk w.result = true)
    (hq2 : exceptOk w2.result = true)
    (hpg : pgExecuteQuery w (some pool) q = Except.ok r)
    (hch : chExecuteQuery w2 normVal (some conn2) q2 = Except.ok r2) :
    r.executionTime = w.queryMillis + w.scanMillis ∧
    r.error = "" ∧ r.rowCount = r.rows.length ∧
    r2.executionTime = w2.queryMillis + w2.scanMillis ∧
    r2.error = "" ∧ r2.rowCount = r2.rows.length := by
  cases hres : w.result with
  | error e => rw [hres] at hq; simp [exceptOk] at hq
  | ok pr =>
      cases hres2 : w2.result with
      | error e2 => rw [hres2] at hq2; simp [exceptOk] at hq2
      | ok pr2 =>
          obtain ⟨cols, raws⟩ := pr
          obtain ⟨cols2, raws2⟩ := pr2
          rw [pgExecuteQuery, hres] at hpg
          rw [chExecuteQuery, hres2] at hch
          simp only [Except.ok.injEq] at hpg hch
          rw [← hpg, ← hch]
          refine ⟨rfl, rfl, rfl, rfl, rfl, rfl⟩

theorem executeQuery_time_and_rowcount_witness :
    (exceptOk timingWorld.result = true) ∧
    (pgExecuteQuery timingWorld (some 0) "SELECT 1"
      = Except.ok { columns := ["c"], rows := [[("c", "v")]], rowCount := 1,
                    executionTime := 15, error := "" }) ∧
    (chExecuteQuery timingWorld (fun v => v) (some 0) "SELECT 1"
      = Except.ok { columns := ["c"], rows := [[("c", "v")]], rowCount := 1,
                    executionTime := 15, error := "" }) ∧
    ((15 : Nat) = timingWorld.queryMillis + timingWorld.scanMillis ∧
     (1 : Nat) = [[(("c" : String), ("v" : String))]].length) :=
  ⟨rfl, rfl, rfl,
   (executeQuery_time_and_rowcount timingWorld timingWorld (fun v => v) 0 0
      "SELECT 1" "SELECT 1"
      { columns := ["c"], rows := [[("c", "v")]], rowCount := 1,
        executionTime := 15, error := "" }
      { columns := ["c"], rows := [[("c", "v")]], rowCount := 1,
        executionTime := 15, error := "" }
      rfl rfl rfl rfl).1,
   (executeQuery_time_and_rowcount timingWorld timingWorld (fun v => v) 0 0
      "SELECT 1" "SELECT 1"
      { columns := ["c"], rows := [[("c", "v")]], rowCount := 1,
        executionTime := 15, error := "" }
      { columns := ["c"], rows := [[("c", "v")]], rowCount := 1,
        executionTime := 15, error := "" }
      rfl rfl rfl rfl).2.2.1⟩

/-! ### Claim C8: secrets in read responses -/

/-- `config.GetConnectionByID` (config.go lines 82-92): the first stored
descriptor with the id, or the not-found error. -/
def getConnectionByID (store : List Connection) (id : String) :
    Option Connection :=
  store.find? (fun c => c.id == id)

/-- `GetConnectionsHandler` (handlers/databases.go lines 164-182): copies
the stored descriptors, blanks every password and refreshes the live flag
before encoding. -/
def getConnectionsHandler (store : List Connection) (live : String → Bool) :
    List Connection :=
  store.map (fun c => { c with password := "", connected := live c.id })

/-- `GetConnectionHandler` (handlers/databases.go lines 184-209): 404 when
the id is unknown; otherwise the stored descriptor is emitted with the
password kept only when the `edit=true` query parameter was sent, and the
live flag refreshed. -/
def getConnectionHandler (store : List Connection) (id : String)
    (edit : Bool) (live : String → Bool) : Except (Nat × String) Connection :=
  match getConnectionByID store id with
  | none => Except.error (404, notFoundMsg id)
  | some c =>
      Except.ok { c with password := if edit then c.password else "",
                         connected := live id }

/-- Claim C8: no read response carries the secret unless the reveal-for-edit
flag is set — the list read always emits an empty password, the single read
emits an empty password when `edit` is not `true`, and only the explicit
`edit=true` read reveals the stored password. -/
theorem secrets_never_emitted (store : List Connection) (live : String → Bool)
    (id : String) (c : Connection)
    (hlist : c ∈ getConnectionsHandler store live) :
    c.password = "" ∧
    (∀ c2, getConnectionHandler store id false live = Except.ok c2 →
        c2.password = "") ∧
    (∀ c0 c3, getConnectionByID store id = some c0 →
        getConnectionHandler store id true live = Except.ok c3 →
        c3.password = c0.password) := by
  refine ⟨?_, ?_, ?_⟩
  · simp only [getConnectionsHandler, List.mem_map] at hlist
    obtain ⟨a, _, rfl⟩ := hlist
    rfl
  · intro c2 h
    unfold getConnectionHandler at h
    cases hg : getConnectionByID store id with
    | none => rw [hg] at h; exact absurd h (by simp)
    | some c0 =>
        rw [hg] at h
        simp only [Except.ok.injEq] at h
        rw [← h]
        simp
  · intro c0 c3 hg h
    unfold getConnectionHandler at h
    rw [hg] at h
    simp only [Except.ok.injEq] at h
    rw [← h]
    simp

theorem secrets_never_emitted_witness :
    ({ connPG with password := "", connected := false }
        ∈ getConnectionsHandler [connPG] (fun _ => false)) ∧
    (getConnectionHandler [connPG] "pg1" false (fun _ => false)
        = Except.ok { connPG with password := "", connected := false } ∧
     ({ connPG with password := "", connected := false } : Connection).password
        = "") :=
  ⟨by decide,
   rfl,
   (secrets_never_emitted [connPG] (fun _ => false) "pg1"
      { connPG with password := "", connected := false } (by decide)).2.1
      { connPG with password := "", connected := false } rfl⟩

/-! ### Claim C9: the register-connection flow -/

/-- What `CreateConnectionHandler` produces: HTTP status, the JSON-encoded
descriptor (with the password already blanked where the code blanks it),
the warning field when present, and the descriptor store and manager state
afterwards. -/
structure CreateConnOutcome where
  status : Nat
  emitted : Option Connection
  warning : Option String
  store : List Connection
  mgr : ManagerState

/-- The descriptor the handler registers: fresh generated id,
`Connected=false`, fresh timestamps (handlers/databases.go lines 229-232). -/
def registerDescriptor (req : Connection) (newId : String) (now : Nat) :
    Connection :=
  { req with id := newId, connected := false, createdAt := now,
             updatedAt := now }

/-- `CreateConnectionHandler` (handlers/databases.go lines 211-274): an
empty password is rejected with 400 and nothing persisted; otherwise a
validation connect is attempted; on failure the descriptor (password
intact) is still persisted and a 201 response carries the blanked
descriptor plus a warning; on success the handler immediately disconnects,
persists the descriptor with `Connected=false` and the password intact,
and responds 201 with the blanked descriptor and no warning. -/
def createConnectionHandler (B : Behavior) (store : List Connection)
    (mgr : ManagerState) (req : Connection) (newId : String) (now : Nat) :
    CreateConnOutcome :=
  if req.password = "" then
    ⟨400, none, none, store, mgr⟩
  else
    let conn := registerDescriptor req newId now
    let savedPassword := conn.password
    match mgr.connect B conn with
    | (mgr1, some e) =>
        ⟨201, some { conn with password := "" },
         some ("Не удалось подключиться: " ++ e), store ++ [conn], mgr1⟩
    | (mgr1, none) =>
        let mgr2 := (mgr1.disconnect B conn.id).1
        let conn2 := { conn with connected := false,
                                 password := savedPassword }
        ⟨201, some { conn2 with password := "" }, none,
         store ++ [conn2], mgr2⟩

theorem connect_ok_drivers (B : Behavior) (s : ManagerState)
    (conn : Connection) (h : (s.connect B conn).2 = none) :
    ((s.connect B conn).1).drivers
      = insertDriver s.drivers conn.id ⟨s.nextInst, conn.dbType, conn⟩ := by
  by_cases hsup : factorySupports conn.dbType = false
  · simp [ManagerState.connect, hsup] at h
  · by_cases hok : B.connectOk conn = true
    · simp [ManagerState.connect, hsup, hok]
    · simp [ManagerState.connect, hsup, hok] at h

/-- Claim C9: a register request attempts a validation connect; when that
connect fails (unreachable host), the descriptor is still persisted with
`Connected=false` and the response is a 201 carrying a warning that marks
"saved but not connected" (instead of a rejecting error that would discard
the descriptor); when it succeeds, the handler immediately disconnects so
that only the descriptor is persisted (`Connected=false`), leaving no live
registry entry for the new id. -/
theorem register_connection_policy (B : Behavior) (store : List Connection)
    (mgr : ManagerState) (req : Connection) (newId : String) (now : Nat)
    (hpw : ¬ req.password = "") :
    (∀ e, (mgr.connect B (registerDescriptor req newId now)).2 = some e →
        (createConnectionHandler B store mgr req newId now).status = 201 ∧
        (createConnectionHandler B store mgr req newId now).warning
            = some ("Не удалось подключиться: " ++ e) ∧
        (createConnectionHandler B store mgr req newId now).store
            = store ++ [registerDescriptor req newId now] ∧
        ((createConnectionHandler B store mgr req newId now).mgr).drivers
            = ((mgr.connect B (registerDescriptor req newId now)).1).drivers) ∧
    ((mgr.connect B (registerDescriptor req newId now)).2 = none →
      B.closeOk mgr.nextInst = true →
        (createConnectionHandler B store mgr req newId now).status = 201 ∧
        (createConnectionHandler B store mgr req newId now).warning = none ∧
        (createConnectionHandler B store mgr req newId now).store
            = store ++ [registerDescriptor req newId now] ∧
        (registerDescriptor req newId now).connected = false ∧
        lookupDriver
            ((createConnectionHandler B store mgr req newId now).mgr).drivers
            newId = none) := by
  constructor
  · intro e he
    rcases hconn : mgr.connect B (registerDescriptor req newId now)
      with ⟨mgr1, err⟩
    rw [hconn] at he
    simp only at he
    subst he
    simp [createConnectionHandler, hpw, hconn]
  · intro he hclose
    rcases hconn : mgr.connect B (registerDescriptor req newId now)
      with ⟨mgr1, err⟩
    rw [hconn] at he
    simp only at he
    subst he
    have hdr : mgr1.drivers
        = insertDriver mgr.drivers newId
            ⟨mgr.nextInst, (registerDescriptor req newId now).dbType,
             registerDescriptor req newId now⟩ := by
      have h2 := connect_ok_drivers B mgr (registerDescriptor req newId now)
        (by rw [hconn])
      rw [hconn] at h2
      exact h2
    refine ⟨?_, ?_, ?_, rfl, ?_⟩
    · simp [createConnectionHandler, hpw, hconn]
    · simp [createConnectionHandler, hpw, hconn]
    · simp only [createConnectionHandler, hpw, if_neg, hconn]
      simp [registerDescriptor]
    · simp only [createConnectionHandler, hpw, if_neg, hconn]
      have hid : (registerDescriptor req newId now).id = newId := rfl
      have hlook : lookupDriver mgr1.drivers newId
          = some ⟨mgr.nextInst, (registerDescriptor req newId now).dbType,
                  registerDescriptor req newId now⟩ := by
        rw [hdr, lookup_insert]
        simp
      simp [ManagerState.disconnect, hid, hlook, hclose, lookup_erase]

theorem register_connection_policy_witness :
    (¬ connPG.password = "") ∧
    ((emptyManager.connect connectFailsBehavior
        (registerDescriptor connPG "new1" 7)).2
        = some ("ошибка подключения: " ++ "connection refused")) ∧
    ((createConnectionHandler connectFailsBehavior [] emptyManager connPG
        "new1" 7).status = 201 ∧
     (createConnectionHandler connectFailsBehavior [] emptyManager connPG
        "new1" 7).warning
        = some ("Не удалось подключиться: "
            ++ ("ошибка подключения: " ++ "connection refused")) ∧
     (createConnectionHandler connectFailsBehavior [] emptyManager connPG
        "new1" 7).store = [] ++ [registerDescriptor connPG "new1" 7]) ∧
    ((emptyManager.connect alwaysOkBehavior
        (registerDescriptor connPG "new1" 7)).2 = none) ∧
    ((createConnectionHandler alwaysOkBehavior [] emptyManager connPG
        "new1" 7).warning = none ∧
     lookupDriver
        ((createConnectionHandler alwaysOkBehavior [] emptyManager connPG
            "new1" 7).mgr).drivers "new1" = none) :=
  ⟨by decide, rfl,
   ⟨((register_connection_policy connectFailsBehavior [] emptyManager connPG
        "new1" 7 (by decide)).1
        ("ошибка подключения: " ++ "connection refused") rfl).1,
    ((register_connection_policy connectFailsBehavior [] emptyManager connPG
        "new1" 7 (by decide)).1
        ("ошибка подключения: " ++ "connection refused") rfl).2.1,
    ((register_connection_policy connectFailsBehavior [] emptyManager connPG
        "new1" 7 (by decide)).1
        ("ошибка подключения: " ++ "connection refused") rfl).2.2.1⟩,
   rfl,
   ⟨((register_connection_policy alwaysOkBehavior [] emptyManager connPG
        "new1" 7 (by decide)).2 rfl rfl).2.1,
    ((register_connection_policy alwaysOkBehavior [] emptyManager connPG
        "new1" 7 (by decide)).2 rfl rfl).2.2.2.2⟩⟩

/-! ### Claim C10: operations before connect / after disconnect -/

/-- The contract operations other than `Connect`/`Disconnect`/`IsConnected`. -/
inductive ContractOp where
  | executeQuery | ping | createDatabase | listDatabases | updateDatabase
  | deleteDatabase | createTable | listTables | deleteTable | updateTable
  | createUser | listUsers | updateUser | deleteUser
deriving DecidableEq, Repr

/-- What an operation invoked on a driver does: return with a Go error
(`ret (some e)`), return with a nil error (`ret none`), or dereference a
nil session handle (a runtime panic). -/
inductive OpOutcome where
  | ret (err : Option String)
  | nilDeref
deriving DecidableEq, Repr

/-- The guard error every session-using operation returns when the session
handle is nil. -/
def notConnectedMsg : String := "подключение не установлено"

/-- `PostgreSQLDriver` with `d.pool == nil` (part_005 lines 97-543): every
operation starts with the `if d.pool == nil` guard and returns the
connection-not-established error instead of touching the pool. -/
def pgOpDisconnected : ContractOp → OpOutcome
  | .executeQuery => .ret (some notConnectedMsg)
  | .ping => .ret (some notConnectedMsg)
  | .createDatabase => .ret (some notConnectedMsg)
  | .listDatabases => .ret (some notConnectedMsg)
  | .updateDatabase => .ret (some notConnectedMsg)
  | .deleteDatabase => .ret (some notConnectedMsg)
  | .createTable => .ret (some notConnectedMsg)
  | .listTables => .ret (some notConnectedMsg)
  | .deleteTable => .ret (some notConnectedMsg)
  | .updateTable => .ret (some notConnectedMsg)
  | .createUser => .ret (some notConnectedMsg)
  | .listUsers => .ret (some notConnectedMsg)
  | .updateUser => .ret (some notConnectedMsg)
  | .deleteUser => .ret (some notConnectedMsg)

/-- `ClickHouseDriver` with `d.conn == nil` (part_005 lines 592-966): same
uniform guard on every operation. -/
def chOpDisconnected : ContractOp → OpOutcome
  | .executeQuery => .ret (some notConnectedMsg)
  | .ping => .ret (some notConnectedMsg)
  | .createDatabase => .ret (some notConnectedMsg)
  | .listDatabases => .ret (some notConnectedMsg)
  | .updateDatabase => .ret (some notConnectedMsg)
  | .deleteDatabase => .ret (some notConnectedMsg)
  | .createTable => .ret (some notConnectedMsg)
  | .listTables => .ret (some notConnectedMsg)
  | .deleteTable => .ret (some notConnectedMsg)
  | .updateTable => .ret (some notConnectedMsg)
  | .createUser => .ret (some notConnectedMsg)
  | .listUsers => .ret (some notConnectedMsg)
  | .updateUser => .ret (some notConnectedMsg)
  | .deleteUser => .ret (some notConnectedMsg)

/-- `AerospikeDriver` with `d.client == nil` (part_004): session-using
operations are guarded and return the connection-not-established error, but
the operations Aerospike cannot support at all (database/table mutation,
user creation) return their unsupported explanation without consulting the
client at all. -/
def aerospikeOpDisconnected : ContractOp → OpOutcome
  | .executeQuery => .ret (some notConnectedMsg)
  | .ping => .ret (some notConnectedMsg)
  | .createDatabase =>
      .ret (some "namespace в Aerospike создается через конфигурационный файл aerospike.conf")
  | .listDatabases => .ret (some notConnectedMsg)
  | .updateDatabase =>
      .ret (some "переименование namespace в Aerospike требует изменения конфигурационного файла aerospike.conf и перезапуска кластера")
  | .deleteDatabase =>
      .ret (some "удаление namespace в Aerospike требует изменения конфигурационного файла aerospike.conf и перезапуска кластера")
  | .createTable => .ret (some aeroTablesMsg)
  | .listTables => .ret (some aeroTablesMsg)
  | .deleteTable => .ret (some aeroTablesMsg)
  | .updateTable => .ret (some aeroTablesMsg)
  | .createUser => .ret (some aeroCreateUserMsg)
  | .listUsers => .ret (some notConnectedMsg)
  | .updateUser => .ret (some notConnectedMsg)
  | .deleteUser => .ret (some notConnectedMsg)

/-- `PostgreSQLDriver.IsConnected`: false when the pool is nil, otherwise
the result of the probe. -/
def pgIsConnected (pool : Option Nat) (pingOk : Bool) : Bool :=
  match pool with
  | none => false
  | some _ => pingOk

/-- `ClickHouseDriver.IsConnected`. -/
def chIsConnected (conn : Option Nat) (pingOk : Bool) : Bool :=
  match conn with
  | none => false
  | some _ => pingOk

/-- `AerospikeDriver.IsConnected`: `d.client != nil && d.client.IsConnected()`. -/
def aeroIsConnected (client : Option Nat) (clientConnected : Bool) : Bool :=
  match client with
  | none => false
  | some _ => clientConnected

/-- Claim C10 counterexample: `AerospikeDriver.CreateTable` invoked before
any successful `Connect` does not return the "connection not established"
error the claim requires — it returns the unsupported-tables explanation
(part_004 lines 129-131 have no nil-client guard). -/
theorem preconnect_counterexample :
    aerospikeOpDisconnected ContractOp.createTable
        = OpOutcome.ret (some aeroTablesMsg) ∧
    aeroTablesMsg ≠ notConnectedMsg :=
  ⟨rfl, by decide⟩

/-- Claim C10 (amended): invoked before any successful `Connect` or after
`Disconnect`, every PostgreSQL and ClickHouse contract operation returns
the "connection not established" error; every Aerospike operation returns
some non-nil error — for its unsupported operations it is the unsupported
explanation rather than the connection error — and none of the three
drivers dereferences the nil session handle or silently succeeds;
`IsConnected` is false on all three. -/
theorem preconnect_ops_never_deref (op : ContractOp)
    (pingOk clientConn : Bool) :
    pgOpDisconnected op = OpOutcome.ret (some notConnectedMsg) ∧
    chOpDisconnected op = OpOutcome.ret (some notConnectedMsg) ∧
    aerospikeOpDisconnected op ≠ OpOutcome.nilDeref ∧
    aerospikeOpDisconnected op ≠ OpOutcome.ret none ∧
    pgIsConnected none pingOk = false ∧
    chIsConnected none pingOk = false ∧
    aeroIsConnected none clientConn = false := by
  cases op <;> exact ⟨rfl, rfl, by decide, by decide, rfl, rfl, rfl⟩

end DatabaseManager
